import Mathlib

/-!
Verification of the code-escalator MCP server (Go sources: gethelp.go and
the unnamed server file). The Go code is shallowly embedded: file access,
the HTTP client and JSON encoding are replaced by explicit stub inputs,
wall-clock time by a natural-number clock advanced only by backoff sleeps,
and control flow is translated statement by statement. Each embedded
function carries, where a claim needs it, an explicit trace of the side
effects the Go code would perform (attempt indices of upstream calls,
which collaborators were invoked), so that statements such as "no upstream
call is attempted" become statements about that trace.
-/

/-- A JSON-compatible value, as produced by json.Unmarshal into a Go
interface value. Only the shape matters for the embedded code: the Go type
assertion to string succeeds exactly on the str constructor. -/
inductive JsonValue where
  | str (s : String)
  | num (n : Int)
  | bool (b : Bool)
  | null
  | arr (xs : List JsonValue)
  | obj (fields : List (String × JsonValue))

/-- A Go map from string to interface value, as an association list. -/
def Args : Type := List (String × JsonValue)

/-- The Go pattern: v, ok := arguments[key].(string); the variable keeps
its zero value (the empty string) when the key is absent or the dynamic
type is not string. -/
def getString (args : Args) (key : String) : String :=
  match List.lookup key args with
  | some (JsonValue.str s) => s
  | _ => ""

/-- One content block map, as in gethelp.go: a map with a type tag and a
text payload (the only kind used is the text kind). -/
structure ContentBlock where
  kind : String
  text : String
deriving DecidableEq, Repr

/-- Result of one CreateChatCompletion call made by the stubbed upstream
client: either an error (tagged with whether it is of the transient,
retry-worthy class: HTTP 429 or 5xx) or a list of choice message contents.
The Go code receives the error value but, as the proofs below show, never
inspects the transient tag. -/
inductive UpstreamReply where
  | failure (transient : Bool) (msg : String)
  | success (choices : List String)

/-- Classification of a failed askOpenAI call in the embedding. -/
inductive CallError where
  | deadlineExceeded
  | upstream (transient : Bool) (msg : String)
  | emptyResponse
  | maxRetriesExceeded
deriving DecidableEq, Repr

deriving instance DecidableEq for Except

/-- The Go error message that the embedded error maps to. -/
def CallError.message : CallError → String
  | .deadlineExceeded => "context deadline exceeded"
  | .upstream _ msg => msg
  | .emptyResponse => "no response from OpenAI"
  | .maxRetriesExceeded => "max retries exceeded"

/-- gethelp.go line 172: maxRetries := 3. -/
def maxRetries : Nat := 3

/-- gethelp.go line 173: the fixed backoff schedule, in seconds. -/
def backoffDurations : List Nat := [2, 4, 8]

/-- Outcome of askOpenAI in the embedding: the returned value or error,
the simulated clock after the call (it starts at the given now and is
advanced only by the backoff sleeps), and the indices of the attempts on
which CreateChatCompletion was actually invoked or cut off by the expired
context. -/
structure AskResult where
  outcome : Except CallError String
  clock : Nat
  attempts : List Nat
deriving DecidableEq, Repr

/-- One CreateChatCompletion call at simulated time now against the stub
client. A context whose deadline has already passed makes the transport
return the context error without reaching the server; otherwise the stub
decides the reply for this attempt index. -/
def createChatCompletion (client : Nat → UpstreamReply) (deadline now attempt : Nat) :
    Except CallError (List String) :=
  if deadline ≤ now then Except.error CallError.deadlineExceeded
  else
    match client attempt with
    | UpstreamReply.failure t msg => Except.error (CallError.upstream t msg)
    | UpstreamReply.success choices => Except.ok choices

/-- The retry loop of askOpenAI (gethelp.go lines 180-207), with the
remaining loop iterations as fuel. On any error the code sleeps and
retries while attempt < maxRetries - 1, with no inspection of the error
class; on a reply with zero choices it fails without retrying; otherwise
it returns the first choice. The fuel-zero case is the dead return after
the loop. -/
def askLoop (client : Nat → UpstreamReply) (deadline : Nat) :
    Nat → Nat → Nat → AskResult
  | 0, _, now => ⟨Except.error CallError.maxRetriesExceeded, now, []⟩
  | fuel + 1, attempt, now =>
    match createChatCompletion client deadline now attempt with
    | Except.error e =>
      if attempt < maxRetries - 1 then
        let r := askLoop client deadline fuel (attempt + 1)
          (now + backoffDurations.getD attempt 0)
        ⟨r.outcome, r.clock, attempt :: r.attempts⟩
      else ⟨Except.error e, now, [attempt]⟩
    | Except.ok choices =>
      match choices with
      | [] => ⟨Except.error CallError.emptyResponse, now, [attempt]⟩
      | c :: _ => ⟨Except.ok c, now, [attempt]⟩

/-- askOpenAI (gethelp.go lines 169-208): run the retry loop from attempt
zero at the given start time against the given context deadline. -/
def askOpenAI (client : Nat → UpstreamReply) (deadline now : Nat) : AskResult :=
  askLoop client deadline maxRetries 0 now

/-- The tool Call wraps askOpenAI in a context with a 3 minute timeout
(gethelp.go line 104), measured here in seconds. -/
def callTimeout : Nat := 180

/-- The fixed prompt template of buildPrompt (gethelp.go lines 148-159)
with the three fields substituted verbatim for the three format verbs. -/
def promptTemplate (summary question relevantCode : String) : String :=
  "As a software architect, provide help with this issue:\n\n<summary>\n"
    ++ summary
    ++ "\n</summary>\n\n---\n**Question:** "
    ++ question
    ++ "\n\n**Relevant Code:** "
    ++ relevantCode

/-- buildPrompt (gethelp.go lines 147-167). Go measures len(prompt), the
UTF-8 byte length of the rendered string, against 80000 (20000 tokens at
about 4 chars per token) and rejects, never truncates. -/
def buildPrompt (summary question relevantCode : String) : Except String String :=
  let prompt := promptTemplate summary question relevantCode
  if prompt.utf8ByteSize > 80000 then
    Except.error "prompt exceeds 20,000 token limit"
  else Except.ok prompt

/-- Stub outcomes for the collaborators of the get_help tool Call that
live outside the embedded code: the result of loadSummary (a file read)
and the per-attempt behaviour of the upstream chat-completion endpoint. -/
structure GetHelpEnv where
  summaryFile : Except String String
  client : Nat → UpstreamReply

/-- The side effects of one tool Call, in program order, recorded so that
claims of the form "no upstream call is attempted" are about this trace. -/
inductive Effect where
  | loadSummary
  | buildPrompt
  | askOpenAI
deriving DecidableEq, Repr

/-- The fixed user-facing failure text of the tool Call. -/
def archUnavailable : String :=
  "The architect is currently unavailable. Please try again later."

/-- Call of GetHelpTool (gethelp.go lines 55-125): read the two required
string arguments and the optional one with the Go type assertion, fail
with the missing-fields block when either is empty, else load the summary,
build the prompt, and ask the upstream model under a 3 minute deadline;
every failure after argument validation yields the fixed unavailable text
block plus the underlying error. Returns the content blocks, the Go error
value (as an optional message), and the effect trace. -/
def GetHelpCall (env : GetHelpEnv) (arguments : Args) :
    (List ContentBlock × Option String) × List Effect :=
  let question := getString arguments "question"
  let summary := getString arguments "summary"
  let relevantCode := getString arguments "relevant_code"
  if question = "" ∨ summary = "" then
    (([⟨"text", "Error: Missing required fields: question and summary"⟩],
      some "missing required fields"), [])
  else
    match env.summaryFile with
    | Except.error e =>
      (([⟨"text", archUnavailable⟩], some e), [Effect.loadSummary])
    | Except.ok projectSummary =>
      match buildPrompt projectSummary question relevantCode with
      | Except.error e =>
        (([⟨"text", archUnavailable⟩], some e),
          [Effect.loadSummary, Effect.buildPrompt])
      | Except.ok _prompt =>
        match (askOpenAI env.client callTimeout 0).outcome with
        | Except.error e =>
          (([⟨"text", archUnavailable⟩], some e.message),
            [Effect.loadSummary, Effect.buildPrompt, Effect.askOpenAI])
        | Except.ok answer =>
          (([⟨"text", answer⟩], none),
            [Effect.loadSummary, Effect.buildPrompt, Effect.askOpenAI])

/-- A registered MCP tool: name, description and the Call operation
(content blocks plus optional error), as in the Tool interface of the
server file. The static schema document is not needed by any claim. -/
structure Tool where
  name : String
  description : String
  call : Args → List ContentBlock × Option String

/-- The get_help tool as registered by main: its Call is GetHelpCall with
the trace projected away. -/
def getHelpTool (env : GetHelpEnv) : Tool :=
  ⟨"get_help", "Escalate difficult problems to OpenAI for expert guidance",
    fun args => (GetHelpCall env args).1⟩

/-- The MCP server state: the tool registry and the static server info. -/
structure MCPServer where
  tools : List Tool
  serverName : String
  serverVersion : String

/-- NewMCPServer: empty registry plus the server info map. -/
def NewMCPServer (name version : String) : MCPServer :=
  ⟨[], name, version⟩

/-- RegisterTool stores the tool under its name; the Go map overwrites an
existing entry, modelled by prepending so that lookup finds the newest. -/
def RegisterTool (s : MCPServer) (t : Tool) : MCPServer :=
  { s with tools := t :: s.tools }

/-- The Go map access s.tools[name]: first registered tool of that name. -/
def findTool (tools : List Tool) (name : String) : Option Tool :=
  tools.find? (fun t => t.name = name)

/-- The payload of a successful JSON-RPC response: the static initialize
result, the tools list (name and description per tool; the schema is
static data), or a tool call result with its isError flag. -/
inductive RpcPayload where
  | initializeResult (protocolVersion serverName serverVersion : String)
  | toolsList (tools : List (String × String))
  | toolCallResult (content : List ContentBlock) (isError : Bool)
deriving DecidableEq, Repr

/-- A JSON-RPC error object: code and message. -/
structure RpcError where
  code : Int
  message : String
deriving DecidableEq, Repr

/-- A decoded JSON-RPC request envelope. The params field holds the result
of unmarshalling the raw params into the tools-call parameter struct:
none when that unmarshal fails, otherwise the name and arguments. -/
structure JsonRPCRequest where
  jsonrpc : String
  id : Int
  method : String
  params : Option (String × Args)

/-- A JSON-RPC response envelope; result and error are optional fields. -/
structure JsonRPCResponse where
  jsonrpc : String
  id : Int
  result : Option RpcPayload
  error : Option RpcError

/-- HandleToolsCall (server file lines 83-118): decode the params, look up
the tool, invoke it; a tool error becomes a result payload flagged
isError, not a protocol error. Returns the result, the protocol error and
the names of the tools invoked. -/
def HandleToolsCall (tools : List Tool) (params : Option (String × Args)) :
    Option RpcPayload × Option RpcError × List String :=
  match params with
  | none => (none, some ⟨-32602, "Invalid params"⟩, [])
  | some (name, args) =>
    match findTool tools name with
    | none => (none, some ⟨-32602, "Unknown tool"⟩, [])
    | some tool =>
      match tool.call args with
      | (content, some _) =>
        (some (RpcPayload.toolCallResult content true), none, [name])
      | (content, none) =>
        (some (RpcPayload.toolCallResult content false), none, [name])

/-- ProcessRequest (server file lines 120-151): dispatch on the method
name; the response copies the request id; exactly one of result and error
is filled in each branch. Returns the response and the invoked tools. -/
def ProcessRequest (s : MCPServer) (req : JsonRPCRequest) :
    JsonRPCResponse × List String :=
  if req.method = "initialize" then
    (⟨"2.0", req.id,
      some (RpcPayload.initializeResult "2025-03-26" s.serverName s.serverVersion),
      none⟩, [])
  else if req.method = "tools/list" then
    (⟨"2.0", req.id,
      some (RpcPayload.toolsList (s.tools.map fun t => (t.name, t.description))),
      none⟩, [])
  else if req.method = "tools/call" then
    match HandleToolsCall s.tools req.params with
    | (_result, some e, trace) => (⟨"2.0", req.id, none, some e⟩ , trace)
    | (result, none, trace) => (⟨"2.0", req.id, result, none⟩, trace)
  else
    (⟨"2.0", req.id, none, some ⟨-32601, "Method not found"⟩⟩, [])

/-- One Decode outcome of the json.Decoder on the stdin stream: a decoded
request envelope; a well-formed JSON value that fails to unmarshal into
the request struct (an unmarshal type error, after which the decoder has
consumed the value and stays usable); or a scanner error on malformed
JSON, which encoding/json stores into the decoder (dec.err), so that
every later Decode returns that same error. -/
inductive DecodeOutcome where
  | ok (req : JsonRPCRequest)
  | typeErr
  | scanErr

/-- True exactly on the sticky scanner-error outcome. -/
def isScanErr : DecodeOutcome → Bool
  | DecodeOutcome.scanErr => true
  | _ => false

/-- The decoded request of an outcome, when there is one. -/
def okOf : DecodeOutcome → Option JsonRPCRequest
  | DecodeOutcome.ok req => some req
  | _ => none

/-- RunStdio (server file lines 153-174): each loop iteration decodes one
value; io.EOF breaks the loop; any other Decode error is logged and the
loop continues without writing anything. An unmarshal type error leaves
the decoder usable, so the next line is read; a scanner error is sticky,
so every later iteration gets the same non-EOF error again: from that
point the loop writes nothing more and never reaches the EOF break (it
loops forever re-logging the error). The embedding returns the response
envelopes actually written and whether the loop terminated by reaching
the EOF break. -/
def RunStdio (s : MCPServer) : List DecodeOutcome → List JsonRPCResponse × Bool
  | [] => ([], true)
  | DecodeOutcome.ok req :: rest =>
    let r := RunStdio s rest
    ((ProcessRequest s req).1 :: r.1, r.2)
  | DecodeOutcome.typeErr :: rest => RunStdio s rest
  | DecodeOutcome.scanErr :: _ => ([], false)

/-- What HandleHTTP writes as a body: the message handed to http.Error
(which appends a newline), the JSON encoding of the one-field answer map,
or nothing at all (Go then serves an empty 200 body). -/
inductive HttpBody where
  | text (s : String)
  | jsonAnswer (answer : String)
  | empty
deriving DecidableEq, Repr

/-- An HTTP response of the binding: status code and body. -/
structure HttpResp where
  status : Nat
  body : HttpBody
deriving DecidableEq, Repr

/-- HandleHTTP (server file lines 177-215): non-POST gets 405; an
undecodable body (modelled as none) gets 400; a missing get_help tool gets
503 with its own body; a tool error gets 503 with the fixed architect
body; on success the first content block, when it is a text block, is
encoded as the answer field, and otherwise nothing is written. -/
def HandleHTTP (s : MCPServer) (method : String) (decoded : Option Args) : HttpResp :=
  if method ≠ "POST" then ⟨405, HttpBody.text "Method not allowed"⟩
  else
    match decoded with
    | none => ⟨400, HttpBody.text "malformed request"⟩
    | some args =>
      match findTool s.tools "get_help" with
      | none => ⟨503, HttpBody.text "\x7b\"error\":\"Tool not available\"\x7d"⟩
      | some tool =>
        match tool.call args with
        | (_, some _) =>
          ⟨503, HttpBody.text
            "\x7b\"error\":\"The architect is currently unavailable. Please try again later.\"\x7d"⟩
        | (content, none) =>
          match content with
          | c :: _ =>
            if c.kind = "text" then ⟨200, HttpBody.jsonAnswer c.text⟩
            else ⟨200, HttpBody.empty⟩
          | [] => ⟨200, HttpBody.empty⟩

/-- The server that main builds: a fresh server with the get_help tool
registered once. -/
def escalatorServer (env : GetHelpEnv) : MCPServer :=
  RegisterTool (NewMCPServer "escalator" "1.0.0") (getHelpTool env)

/-- Stub upstream client that fails with a non-transient authentication
error on every attempt. -/
def authFailClient : Nat → UpstreamReply :=
  fun _ => UpstreamReply.failure false "401 Unauthorized"

/-- Stub upstream client that fails with a transient overload error on
every attempt. -/
def transientFailClient : Nat → UpstreamReply :=
  fun _ => UpstreamReply.failure true "503 Service Unavailable"

/-- Stub upstream client that fails transiently on the first two attempts
and succeeds with one non-empty choice on the third. -/
def stubClient3 : Nat → UpstreamReply
  | 0 => UpstreamReply.failure true "429 Too Many Requests"
  | 1 => UpstreamReply.failure true "429 Too Many Requests"
  | _ => UpstreamReply.success ["answer from attempt 3"]

/-- A stub environment whose collaborators all succeed. -/
def stubEnvOk : GetHelpEnv :=
  ⟨Except.ok "project summary", fun _ => UpstreamReply.success ["stub answer"]⟩

-- The retry loop makes at most fuel attempts.
theorem askLoop_attempts_le (client : Nat → UpstreamReply) (deadline : Nat) :
    ∀ fuel attempt now,
      (askLoop client deadline fuel attempt now).attempts.length ≤ fuel := by
  intro fuel
  induction fuel with
  | zero => intro attempt now; simp [askLoop]
  | succ n ih =>
    intro attempt now
    simp only [askLoop]
    cases createChatCompletion client deadline now attempt with
    | error e =>
      by_cases hlt : attempt < maxRetries - 1
      · simp only [hlt, if_true]
        exact Nat.succ_le_succ (ih _ _)
      · simp [hlt]
    | ok choices => cases choices <;> simp

/-- Claim C3: the upstream client makes at most 3 attempts in total, and
for a stub client that fails (transiently) on attempts 1 and 2 and
succeeds with a non-empty choice list on attempt 3, askOpenAI returns the
attempt-3 value and the simulated clock advances by exactly 2 + 4 seconds
of backoff sleep, with attempts 1, 2, 3 all made. -/
theorem askOpenAI_retry_schedule :
    (∀ (client : Nat → UpstreamReply) (deadline now : Nat),
      (askOpenAI client deadline now).attempts.length ≤ 3) ∧
    (∀ (client : Nat → UpstreamReply) (m1 m2 c : String) (rest : List String)
        (deadline now : Nat),
      client 0 = UpstreamReply.failure true m1 →
      client 1 = UpstreamReply.failure true m2 →
      client 2 = UpstreamReply.success (c :: rest) →
      now + 6 < deadline →
      askOpenAI client deadline now = ⟨Except.ok c, now + 6, [0, 1, 2]⟩) := by
  constructor
  · intro client deadline now
    exact askLoop_attempts_le client deadline maxRetries 0 now
  · intro client m1 m2 c rest deadline now h0 h1 h2 hdl
    have hd0 : ¬ deadline ≤ now := by omega
    have hd2 : ¬ deadline ≤ now + 2 := by omega
    have hd6 : ¬ deadline ≤ now + 2 + 4 := by omega
    simp [askOpenAI, maxRetries, askLoop, createChatCompletion, hd0, hd2, hd6,
      h0, h1, h2, backoffDurations, AskResult.mk.injEq]

/-- Claim C3 witness: the schedule theorem applied to the concrete stub
client that fails twice and then succeeds, under the 3 minute deadline of
the tool Call. -/
theorem askOpenAI_retry_schedule_witness :
    askOpenAI stubClient3 callTimeout 0 =
      ⟨Except.ok "answer from attempt 3", 0 + 6, [0, 1, 2]⟩ :=
  askOpenAI_retry_schedule.2 stubClient3 "429 Too Many Requests"
    "429 Too Many Requests" "answer from attempt 3" [] callTimeout 0
    rfl rfl rfl (by decide)

/-- Claim C1: evaluation of askOpenAI on a stub client that fails with a
non-transient 401 error on attempt 1. The code does not fail immediately:
it sleeps 2 s and 4 s, makes attempts 2 and 3 as well, and only then
returns the error, although the comment in the retry branch claims a
429/5xx retryability check. -/
theorem askOpenAI_nontransient_retried :
    askOpenAI authFailClient callTimeout 0 =
      ⟨Except.error (CallError.upstream false "401 Unauthorized"), 6, [0, 1, 2]⟩ ∧
    (askOpenAI authFailClient callTimeout 0).attempts.length = 3 := by
  constructor <;> rfl

/-- Claim C2 counterexample: deadline 1 s after the start, first attempt
fails transiently at time 0, so the deadline elapses during the first 2 s
backoff sleep. The claim says the call then fails immediately rather than
sleeping and continuing the schedule, which would leave the clock at most
at start + 2; in fact the code continues the schedule (a further 4 s sleep
and two more attempts, the clock reaching 6). -/
theorem askOpenAI_deadline_cex :
    askOpenAI transientFailClient 1 0 =
      ⟨Except.error CallError.deadlineExceeded, 6, [0, 1, 2]⟩ ∧
    ¬ (askOpenAI transientFailClient 1 0).clock ≤ 0 + 2 := by
  constructor
  · rfl
  · decide

/-- Claim C2 as amended: when the first attempt fails and the deadline
elapses during the first backoff sleep, the call does not stop: it runs
the full remaining schedule (2 s plus 4 s of sleep) and both remaining
attempts, each cut off with the deadline-exceeded classification, and only
then returns the deadline-exceeded error. -/
theorem askOpenAI_deadline_continues_schedule (client : Nat → UpstreamReply)
    (t : Bool) (m : String) (deadline now : Nat)
    (h1 : now < deadline) (h2 : deadline ≤ now + 2)
    (hc : client 0 = UpstreamReply.failure t m) :
    askOpenAI client deadline now =
      ⟨Except.error CallError.deadlineExceeded, now + 6, [0, 1, 2]⟩ := by
  have hd0 : ¬ deadline ≤ now := by omega
  have hd2 : deadline ≤ now + 2 := h2
  have hd6 : deadline ≤ now + 2 + 4 := by omega
  simp [askOpenAI, maxRetries, askLoop, createChatCompletion, hd0, hd2, hd6,
    hc, backoffDurations, AskResult.mk.injEq]

/-- Claim C2 witness for the amended statement: the concrete run with the
deadline 1 s away and a transiently failing client. -/
theorem askOpenAI_deadline_continues_schedule_witness :
    askOpenAI transientFailClient 1 0 =
      ⟨Except.error CallError.deadlineExceeded, 0 + 6, [0, 1, 2]⟩ :=
  askOpenAI_deadline_continues_schedule transientFailClient true
    "503 Service Unavailable" 1 0 (by decide) (by decide) rfl

-- The success branch of buildPrompt returns the rendered template.
theorem buildPrompt_ok_eq (summary question relevantCode : String) (p : String)
    (h : buildPrompt summary question relevantCode = Except.ok p) :
    p = promptTemplate summary question relevantCode := by
  unfold buildPrompt at h
  by_cases hs : (promptTemplate summary question relevantCode).utf8ByteSize > 80000
  · simp [hs] at h
  · simp [hs] at h
    exact h.symm

/-- Claim C6: buildPrompt renders the fixed template with the three fields
substituted verbatim (promptTemplate is that literal concatenation); it
fails with the prompt-too-large error exactly when the rendered length (in
UTF-8 bytes, which is what Go len measures) exceeds 80000, that is 20000
tokens at 4 characters each; and on success it returns the rendered
prompt unmodified, never truncated. -/
theorem buildPrompt_spec (summary question relevantCode : String) :
    (∀ p, buildPrompt summary question relevantCode = Except.ok p →
      p = promptTemplate summary question relevantCode) ∧
    (buildPrompt summary question relevantCode =
        Except.error "prompt exceeds 20,000 token limit" ↔
      (promptTemplate summary question relevantCode).utf8ByteSize > 80000) ∧
    ((promptTemplate summary question relevantCode).utf8ByteSize ≤ 80000 →
      buildPrompt summary question relevantCode =
        Except.ok (promptTemplate summary question relevantCode)) := by
  refine ⟨fun p hp => buildPrompt_ok_eq summary question relevantCode p hp, ?_, ?_⟩
  · unfold buildPrompt
    by_cases hs : (promptTemplate summary question relevantCode).utf8ByteSize > 80000 <;>
      simp [hs]
  · intro hle
    unfold buildPrompt
    have hs : ¬ (promptTemplate summary question relevantCode).utf8ByteSize > 80000 := by
      omega
    simp [hs]

set_option maxRecDepth 10000 in
/-- Claim C6 witness: a small concrete instantiation, whose rendered
prompt is well under the limit and is returned verbatim. -/
theorem buildPrompt_spec_witness :
    buildPrompt "Test project" "How do I test this?" "func test() \x7b\x7d" =
      Except.ok (promptTemplate "Test project" "How do I test this?" "func test() \x7b\x7d") :=
  (buildPrompt_spec "Test project" "How do I test this?" "func test() \x7b\x7d").2.2
    (by decide)

-- A lookup that misses or yields the empty string reads as the zero value.
theorem getString_eq_empty (args : Args) (key : String)
    (h : List.lookup key args = none ∨
      List.lookup key args = some (JsonValue.str "")) :
    getString args key = "" := by
  unfold getString
  rcases h with h | h <;> rw [h]

-- A lookup that yields a non-string value also reads as the zero value.
theorem getString_eq_empty_of_nonstring (args : Args) (key : String) (v : JsonValue)
    (hl : List.lookup key args = some v) (hv : ∀ s, v ≠ JsonValue.str s) :
    getString args key = "" := by
  unfold getString
  rw [hl]
  cases v with
  | str s => exact absurd rfl (hv s)
  | num n => rfl
  | bool b => rfl
  | null => rfl
  | arr xs => rfl
  | obj fields => rfl

-- Shared: Call with an empty question or summary fails before any effect.
theorem GetHelpCall_empty_field (env : GetHelpEnv) (args : Args)
    (h : getString args "question" = "" ∨ getString args "summary" = "") :
    GetHelpCall env args =
      (([⟨"text", "Error: Missing required fields: question and summary"⟩],
        some "missing required fields"), []) := by
  unfold GetHelpCall
  rw [if_pos h]

/-- Claim C5: when the required argument question or summary is absent or
bound to the empty string, Call fails at once with the missing-required-
fields error and the single human-readable text block, and the effect
trace is empty: no context load, no prompt build, no upstream call. -/
theorem GetHelpCall_missing_fields (env : GetHelpEnv) (args : Args)
    (h : (List.lookup "question" args = none ∨
          List.lookup "question" args = some (JsonValue.str "")) ∨
         (List.lookup "summary" args = none ∨
          List.lookup "summary" args = some (JsonValue.str ""))) :
    GetHelpCall env args =
      (([⟨"text", "Error: Missing required fields: question and summary"⟩],
        some "missing required fields"), []) := by
  apply GetHelpCall_empty_field
  rcases h with h | h
  · exact Or.inl (getString_eq_empty args "question" h)
  · exact Or.inr (getString_eq_empty args "summary" h)

/-- Claim C5 witness: the empty argument map, where both required fields
are absent. -/
theorem GetHelpCall_missing_fields_witness :
    GetHelpCall stubEnvOk [] =
      (([⟨"text", "Error: Missing required fields: question and summary"⟩],
        some "missing required fields"), []) :=
  GetHelpCall_missing_fields stubEnvOk [] (Or.inl (Or.inl rfl))

/-- Claim C10: when question or summary is present but bound to a
non-string JSON value, the Go type assertion leaves the zero value, so
Call behaves exactly as if the field were missing: the same error, the
same single text block, and an empty effect trace. -/
theorem GetHelpCall_nonstring_fields (env : GetHelpEnv) (args : Args)
    (h : (∃ v, List.lookup "question" args = some v ∧ ∀ s, v ≠ JsonValue.str s) ∨
         (∃ v, List.lookup "summary" args = some v ∧ ∀ s, v ≠ JsonValue.str s)) :
    GetHelpCall env args =
      (([⟨"text", "Error: Missing required fields: question and summary"⟩],
        some "missing required fields"), []) := by
  apply GetHelpCall_empty_field
  rcases h with ⟨v, hl, hv⟩ | ⟨v, hl, hv⟩
  · exact Or.inl (getString_eq_empty_of_nonstring args "question" v hl hv)
  · exact Or.inr (getString_eq_empty_of_nonstring args "summary" v hl hv)

/-- Claim C10 witness: question bound to the number 5 while summary is a
perfectly good string. -/
theorem GetHelpCall_nonstring_fields_witness :
    GetHelpCall stubEnvOk
        [("question", JsonValue.num 5), ("summary", JsonValue.str "Test project")] =
      (([⟨"text", "Error: Missing required fields: question and summary"⟩],
        some "missing required fields"), []) :=
  GetHelpCall_nonstring_fields stubEnvOk
    [("question", JsonValue.num 5), ("summary", JsonValue.str "Test project")]
    (Or.inl ⟨JsonValue.num 5, rfl, fun _s h => JsonValue.noConfusion h⟩)

-- HandleToolsCall always fills exactly one of result and protocol error.
theorem HandleToolsCall_shape (tools : List Tool) (params : Option (String × Args)) :
    ((HandleToolsCall tools params).1.isSome ∧ (HandleToolsCall tools params).2.1 = none) ∨
    ((HandleToolsCall tools params).1 = none ∧ (HandleToolsCall tools params).2.1.isSome) := by
  unfold HandleToolsCall
  rcases params with _ | ⟨name, args⟩
  · simp
  · rcases hf : findTool tools name with _ | tool
    · simp [hf]
    · rcases hc : tool.call args with ⟨content, err⟩
      cases err <;> simp [hf, hc]

/-- Claim C4: for every server state and every request whose method is one
of initialize, tools/list and tools/call, ProcessRequest produces exactly
one response envelope whose id copies the request id, whose version marker
is 2.0, and in which exactly one of the result and error fields is set,
never both and never neither. -/
theorem ProcessRequest_exactly_one (s : MCPServer) (req : JsonRPCRequest)
    (h : req.method = "initialize" ∨ req.method = "tools/list" ∨
      req.method = "tools/call") :
    ((ProcessRequest s req).1.id = req.id) ∧
    ((ProcessRequest s req).1.jsonrpc = "2.0") ∧
    (((ProcessRequest s req).1.result.isSome ∧ (ProcessRequest s req).1.error = none) ∨
     ((ProcessRequest s req).1.result = none ∧ (ProcessRequest s req).1.error.isSome)) := by
  rcases h with h | h | h
  · simp [ProcessRequest, h]
  · simp [ProcessRequest, h]
  · have hshape := HandleToolsCall_shape s.tools req.params
    rcases hp : HandleToolsCall s.tools req.params with ⟨result, err, trace⟩
    rw [hp] at hshape
    cases err with
    | none =>
      simp only [ProcessRequest, h]
      simp [hp]
      simpa using hshape
    | some e =>
      simp only [ProcessRequest, h]
      simp [hp]

/-- Claim C4 witness: an initialize request with id 1 against the plain
escalator server. -/
theorem ProcessRequest_exactly_one_witness :
    ((ProcessRequest (NewMCPServer "escalator" "1.0.0")
        ⟨"2.0", 1, "initialize", none⟩).1.id = 1) ∧
    ((ProcessRequest (NewMCPServer "escalator" "1.0.0")
        ⟨"2.0", 1, "initialize", none⟩).1.jsonrpc = "2.0") ∧
    (((ProcessRequest (NewMCPServer "escalator" "1.0.0")
        ⟨"2.0", 1, "initialize", none⟩).1.result.isSome ∧
      (ProcessRequest (NewMCPServer "escalator" "1.0.0")
        ⟨"2.0", 1, "initialize", none⟩).1.error = none) ∨
     ((ProcessRequest (NewMCPServer "escalator" "1.0.0")
        ⟨"2.0", 1, "initialize", none⟩).1.result = none ∧
      (ProcessRequest (NewMCPServer "escalator" "1.0.0")
        ⟨"2.0", 1, "initialize", none⟩).1.error.isSome)) :=
  ProcessRequest_exactly_one (NewMCPServer "escalator" "1.0.0")
    ⟨"2.0", 1, "initialize", none⟩ (Or.inl rfl)

/-- Claim C9: a tools/call request naming a capability absent from the
registry gets the protocol error with code -32602 and message Unknown
tool, the response id copies the request id, and the trace of invoked
capabilities is empty. -/
theorem ProcessRequest_unknown_tool (s : MCPServer) (id : Int) (name : String)
    (args : Args) (h : findTool s.tools name = none) :
    ProcessRequest s ⟨"2.0", id, "tools/call", some (name, args)⟩ =
      (⟨"2.0", id, none, some ⟨-32602, "Unknown tool"⟩⟩, []) := by
  have hcall : HandleToolsCall s.tools (some (name, args)) =
      (none, some ⟨-32602, "Unknown tool"⟩, []) := by
    simp [HandleToolsCall, h]
  simp [ProcessRequest, hcall]

/-- Claim C9 witness: an unregistered name against the empty registry. -/
theorem ProcessRequest_unknown_tool_witness :
    ProcessRequest (NewMCPServer "escalator" "1.0.0")
        ⟨"2.0", 7, "tools/call", some ("no_such_tool", [])⟩ =
      (⟨"2.0", 7, none, some ⟨-32602, "Unknown tool"⟩⟩, []) :=
  ProcessRequest_unknown_tool (NewMCPServer "escalator" "1.0.0") 7
    "no_such_tool" [] rfl

/-- Claim C8 counterexample: a malformed line followed by a well-formed
initialize request. The claim says the binding answers the malformed line
with a syntactically valid response envelope, then continues with
subsequent lines, and that end of input ends the loop cleanly; in fact
the run writes no envelope at all (not for the malformed line and, the
scanner error being sticky, not for the following request either) and the
loop never reaches the clean EOF break. -/
theorem RunStdio_no_reply_for_bad_line :
    RunStdio (NewMCPServer "escalator" "1.0.0")
        [DecodeOutcome.scanErr, DecodeOutcome.ok ⟨"2.0", 1, "initialize", none⟩] =
      ([], false) := by
  rfl

/-- Claim C8 as amended: a line that fails to decode is never given to the
dispatcher and no response envelope is emitted for it. A well-formed line
that fails to unmarshal is skipped and the binding continues with the
next line; a malformed line leaves the sticky scanner error in the
decoder, so the loop emits nothing further and never reaches the EOF
break. The envelopes written are exactly the dispatches, in order, of the
requests decoded before any malformed line, and the loop terminates
cleanly at end of input exactly when no line was malformed. -/
theorem RunStdio_decode_failures (s : MCPServer) (stream : List DecodeOutcome) :
    RunStdio s stream =
      ((((stream.takeWhile (fun o => !isScanErr o)).filterMap okOf).map
          (fun req => (ProcessRequest s req).1)),
        stream.all (fun o => !isScanErr o)) := by
  induction stream with
  | nil => rfl
  | cons head tail ih =>
    cases head <;> simp [RunStdio, isScanErr, okOf, ih]

-- Every return path of the tool Call emits exactly one text block.
theorem GetHelpCall_content_shape (env : GetHelpEnv) (args : Args) :
    ∃ a, (GetHelpCall env args).1.1 = [⟨"text", a⟩] := by
  unfold GetHelpCall
  by_cases hq : getString args "question" = "" ∨ getString args "summary" = ""
  · exact ⟨"Error: Missing required fields: question and summary", by simp [hq]⟩
  · rcases hs : env.summaryFile with e | ps
    · exact ⟨archUnavailable, by simp [hq, hs]⟩
    · rcases hb : buildPrompt ps (getString args "question")
          (getString args "relevant_code") with e | p
      · exact ⟨archUnavailable, by simp [hq, hs, hb]⟩
      · rcases ha : (askOpenAI env.client callTimeout 0).outcome with e | ans
        · exact ⟨archUnavailable, by simp [hq, hs, hb, ha]⟩
        · exact ⟨ans, by simp [hq, hs, hb, ha]⟩

-- HandleHTTP only ever answers with one of the four status codes.
theorem HandleHTTP_status_cases (s : MCPServer) (method : String)
    (decoded : Option Args) :
    (HandleHTTP s method decoded).status = 200 ∨
    (HandleHTTP s method decoded).status = 400 ∨
    (HandleHTTP s method decoded).status = 503 ∨
    (HandleHTTP s method decoded).status = 405 := by
  unfold HandleHTTP
  by_cases hm : method ≠ "POST"
  · simp [hm]
  · rcases decoded with _ | args
    · simp [hm]
    · rcases hf : findTool s.tools "get_help" with _ | tool
      · simp [hm, hf]
      · rcases hc : tool.call args with ⟨content, err⟩
        cases err with
        | none =>
          rcases content with _ | ⟨c, rest⟩
          · simp [hm, hf, hc]
          · by_cases hk : c.kind = "text" <;> simp [hm, hf, hc, hk]
        | some msg => simp [hm, hf, hc]

/-- Claim C7: against the server main builds (the get_help tool
registered), the HTTP binding answers every request with one of the
enumerated shapes: 405 for a non-POST method; 400 with the malformed-
request body for a POST whose body does not decode; 503 with the fixed
architect-unavailable JSON body when the tool Call fails; 200 with the
answer JSON carrying the first (and only) text content block when the
Call succeeds; and no status code outside 200, 400, 503, 405 ever. -/
theorem HandleHTTP_shapes (env : GetHelpEnv) (method : String)
    (decoded : Option Args) :
    (method ≠ "POST" →
      HandleHTTP (escalatorServer env) method decoded =
        ⟨405, HttpBody.text "Method not allowed"⟩) ∧
    (method = "POST" → decoded = none →
      HandleHTTP (escalatorServer env) method decoded =
        ⟨400, HttpBody.text "malformed request"⟩) ∧
    (∀ args, method = "POST" → decoded = some args →
      ((GetHelpCall env args).1.2 ≠ none →
        HandleHTTP (escalatorServer env) method decoded =
          ⟨503, HttpBody.text
            "\x7b\"error\":\"The architect is currently unavailable. Please try again later.\"\x7d"⟩) ∧
      ((GetHelpCall env args).1.2 = none →
        ∃ a, (GetHelpCall env args).1.1 = [⟨"text", a⟩] ∧
          HandleHTTP (escalatorServer env) method decoded =
            ⟨200, HttpBody.jsonAnswer a⟩)) ∧
    ((HandleHTTP (escalatorServer env) method decoded).status = 200 ∨
     (HandleHTTP (escalatorServer env) method decoded).status = 400 ∨
     (HandleHTTP (escalatorServer env) method decoded).status = 503 ∨
     (HandleHTTP (escalatorServer env) method decoded).status = 405) := by
  have hfind : findTool (escalatorServer env).tools "get_help" =
      some (getHelpTool env) := rfl
  refine ⟨?_, ?_, ?_, HandleHTTP_status_cases (escalatorServer env) method decoded⟩
  · intro hm
    simp [HandleHTTP, hm]
  · intro hm hd
    subst hm
    subst hd
    simp [HandleHTTP]
  · intro args hm hd
    subst hm
    subst hd
    constructor
    · intro herr
      rcases he : (GetHelpCall env args).1.2 with _ | msg
      · exact absurd he herr
      · have hcall : (getHelpTool env).call args =
            ((GetHelpCall env args).1.1, some msg) := by
          show (GetHelpCall env args).1 = _
          rw [← he]
        simp [HandleHTTP, hfind, hcall]
    · intro hok
      obtain ⟨a, ha⟩ := GetHelpCall_content_shape env args
      have hcall : (getHelpTool env).call args = ([⟨"text", a⟩], none) := by
        show (GetHelpCall env args).1 = _
        rw [← ha, ← hok]
      refine ⟨a, ha, ?_⟩
      simp [HandleHTTP, hfind, hcall]

/-- Claim C7 witness: a POST whose body fails to decode is answered with
400 and the malformed-request body. -/
theorem HandleHTTP_shapes_witness :
    HandleHTTP (escalatorServer stubEnvOk) "POST" none =
      ⟨400, HttpBody.text "malformed request"⟩ :=
  (HandleHTTP_shapes stubEnvOk "POST" none).2.1 rfl rfl

/-- Claim C7 counterexample: the claim says a POST whose body fails to
decode gets HTTP 400 with the JSON object body error: malformed request.
The code (server file line 191) hands the plain text malformed request to
http.Error, so the 400 body is that bare text, not a JSON object. -/
theorem HandleHTTP_malformed_body_cex :
    HandleHTTP (escalatorServer stubEnvOk) "POST" none =
      ⟨400, HttpBody.text "malformed request"⟩ ∧
    HandleHTTP (escalatorServer stubEnvOk) "POST" none ≠
      ⟨400, HttpBody.text "\x7b\"error\":\"malformed request\"\x7d"⟩ := by
  constructor
  · rfl
  · decide
